import Mathlib

/-! Verification development for the yamlpyowl ontology loader
(file `src/src/yamlpyowl/core.py`, the final design iteration).

The Python module translates a YAML-based DSL into OWL2 constructs via the
external owlready2 library.  Below we give a shallow embedding of the parts of
`core.py` that the verified properties are about: the name resolver
(`resolve_name`), the restriction parser (`PropertyRestrictionParser`), the
tree-parse machinery (`TreeParseFunction`, `process_tree`,
`_resolve_yaml_key`), the entity factories with their name registration, and
the fact-assignment routines.  Python exceptions are modelled by an explicit
error type, mutation of the owlready world by explicit state passing.
-/

namespace YamlPyOwl

/-- Model of the Python exceptions raised by `core.py`.  Each constructor is one
concrete exception class actually raised (or propagated) by the code;
`UnknownEntityError` and `MissingKeywordError` are `ValueError` subclasses in
the source, which we capture with the predicate `isValueErrorClass` below. -/
inductive PyErr where
  | valueError (msg : String)
  | unknownEntityError (msg : String)
  | missingKeywordError (msg : String)
  | typeError (msg : String)
  | keyError (msg : String)
  | attributeError (msg : String)
  | notImplementedError
  | assertionError
  | indexError
deriving DecidableEq, Repr

/-- True for exceptions that are instances of Python's `ValueError`
(`UnknownEntityError` and `MissingKeywordError` subclass `ValueError`). -/
def PyErr.isValueErrorClass : PyErr → Bool
  | .valueError _ => true
  | .unknownEntityError _ => true
  | .missingKeywordError _ => true
  | _ => false

/-- True exactly for the exception class `UnknownEntityError`. -/
def PyErr.isUnknownEntityError : PyErr → Bool
  | .unknownEntityError _ => true
  | _ => false

/-- True exactly for the exception class `KeyError`. -/
def PyErr.isKeyError : PyErr → Bool
  | .keyError _ => true
  | _ => false

/-- A YAML value tree, as produced by `yaml.safe_load`: scalars (strings,
ints, floats), sequences and mappings.  Float literals are kept as
uninterpreted strings; no claim depends on float arithmetic. -/
inductive YVal where
  | str (s : String)
  | num (n : Int)
  | fnum (lit : String)
  | list (elems : List YVal)
  | dict (entries : List (String × YVal))

/-- The entities a YAML token can resolve to: owlready classes, individuals,
properties, the built-in table entries of `name_mapping` (owl:Thing, logic
connectives, characteristics, primitive types, ...), and pass-through
literals.  `strLit` is a Python `str` returned as-is (string literal),
`intLit`/`floatLit` are Python numbers returned as-is. -/
inductive Entity where
  | thing
  | nothing
  | cls (name : String)
  | ind (name : String)
  | role (name : String)
  | builtin (name : String)
  | strLit (s : String)
  | intLit (n : Int)
  | floatLit (lit : String)
deriving DecidableEq, Repr

/-- `name_mapping`: the shared namespace, newest entries in front
(dict assignment shadows by prepending). -/
abbrev NameMap := List (String × Entity)

/-- `imported_ontologies`: mapping from a namespace key (IRI or short
form ending in a colon) to an imported ontology, modelled as a name table.
Iterated in insertion order, as the Python dict is. -/
abbrev Imported := List (String × List (String × Entity))

/-- Substring test (Python's `sub in s`). -/
def containsSub (s sub : String) : Bool :=
  (List.range (s.data.length + 1)).any (fun i => sub.data.isPrefixOf (s.data.drop i))

/-- One alternative of the regex `^q.*q$` (with `q` a quote char) under
`re.match`: first char is `q`, last char is `q`, length at least 2, and `.`
does not cross a newline.  (The Python-`$`-before-a-trailing-newline quirk is
not modelled; no input of interest contains newlines.) -/
def matchQuote (cs : List Char) (q : Char) : Bool :=
  match cs with
  | [] => false
  | c :: rest =>
      c == q && rest.getLast? == some q && rest.dropLast.all (fun x => x != '\n')

/-- `quoted_string_re = re.compile("(^\".*\"$)|(^'.*'$)")`, used via `.match`. -/
def quotedStringMatch (s : String) : Bool :=
  matchQuote s.data '"' || matchQuote s.data '\''

/-- `ns_compositum_re = re.compile("(^.+:.+$)")`, used via `.match`:
some colon occurs that is neither the first nor the last character, and no
newline occurs. -/
def nsCompositumMatch (s : String) : Bool :=
  s.data.all (fun x => x != '\n') &&
  match s.data with
  | [] => false
  | _ :: rest => rest.dropLast.any (fun x => x == ':')

/-- `OntologyManager._resolve_name`: look up `name` in `name_mapping`;
otherwise, if it looks like `prefixed:Name`, try the first imported ontology
whose namespace key starts the name, stripping every occurrence of the key
(Python `str.replace`) and doing an attribute lookup (owlready ontologies
yield `None` for unknown attributes, hence `Option`). -/
def _resolve_name (nm : NameMap) (imported : Imported) (name : String) : Option Entity :=
  match List.lookup name nm with
  | some res => some res
  | none =>
      if nsCompositumMatch name then
        match imported.find? (fun p => p.1.isPrefixOf name) with
        | some (ns, onto) => List.lookup (name.replace ns "") onto
        | none => none
      else none

/-- The scalar input type of `resolve_name` (`yaml_Atom = Union[str, int, float]`). -/
inductive Atom where
  | str (s : String)
  | int (n : Int)
  | float (lit : String)
deriving DecidableEq, Repr

/-- `OntologyManager.resolve_name`: numbers pass through; strings matching the
quoted-string pattern are returned unchanged (the source comments that one
pair of quotes was already stripped by the YAML parser); otherwise the name is
looked up, and an unresolved name either passes through
(`accept_unquoted_strs`) or raises `UnknownEntityError`. -/
def resolve_name (nm : NameMap) (imported : Imported) (a : Atom)
    (accept_unquoted_strs : Bool) : Except PyErr Entity :=
  match a with
  | .int n => .ok (.intLit n)
  | .float lit => .ok (.floatLit lit)
  | .str s =>
      if quotedStringMatch s then
        .ok (.strLit s)
      else
        match _resolve_name nm imported s with
        | some res => .ok res
        | none =>
            if accept_unquoted_strs then .ok (.strLit s)
            else .error (.unknownEntityError ("unknown entity name: " ++ s))

/-! The restriction parser (`class PropertyRestrictionParser`).

`self.om.roles` is modelled by the list of declared role names (only
membership and identity of the role are used by the parser), and the two
accumulators `self.objects` / `self.restriction_type_names` are passed and
returned explicitly instead of being mutated on the parser object. -/

/-- An element of the `self.objects` accumulator: a role object
(`self.om.roles[key]`), an inverse-wrapped role (`owl2.Inverse(role)`), or the
terminal value resolved at the innermost level. -/
inductive RObj where
  | role (name : String)
  | inv (name : String)
  | term (e : Entity)
deriving DecidableEq, Repr

/-- A role reference as it appears in the built restriction:
plain or wrapped in `Inverse(...)`. -/
inductive RoleRef where
  | plain (name : String)
  | inverse (name : String)
deriving DecidableEq, Repr

/-- The restriction object built by `process_restriction_body`:
`restrict r q arg` stands for the owlready call `r.q(arg)` (e.g.
`lives_in.some(...)`), and `base o` is the initial fold argument (the popped
final value). -/
inductive RExpr where
  | base (o : RObj)
  | restrict (r : RoleRef) (q : String) (arg : RExpr)
deriving DecidableEq, Repr

/-- Number of restriction-application layers in the output. -/
def RExpr.depth : RExpr → Nat
  | .base _ => 0
  | .restrict _ _ arg => arg.depth + 1

/-- `self.restriction_types` (`{"some": Lit.some, "value": Lit.value}`). -/
def restriction_types : List (String × String) :=
  [("some", "some"), ("value", "value")]

/-- `self.valid_restriction_types = (Lit.value, Lit.some)`. -/
def valid_restriction_types : List String := ["value", "some"]

/-- The closing `assert len(self.objects) == len(self.restriction_type_names)
+ 1` executed at the end of every `parse_dict_to_lists` stack frame, applied
to the accumulators the recursion returned. -/
def checkParseAssert (r : Except PyErr (List RObj × List String)) :
    Except PyErr (List RObj × List String) :=
  match r with
  | .error e => .error e
  | .ok (objs2, rtns2) =>
      if objs2.length == rtns2.length + 1 then .ok (objs2, rtns2)
      else .error .assertionError

/-- The terminal branch of `_process_role_value_dict` for a scalar inner
value: look the quantifier key up in `self.om.restriction_types` (unknown →
`ValueError`; the source message lacks a space after "by"), append it, check
it is valid, and push the resolved terminal object.  `resolved` is the result
of resolving the scalar (`resolve_name(..., accept_unquoted_strs=True)` for
strings, the number itself otherwise); the source computes it after the
quantifier checks, which is observationally the same since resolution is
pure. -/
def terminalScalar (role_name inner_key : String) (resolved : Except PyErr Entity)
    (objs : List RObj) (rtns : List String) : Except PyErr (List RObj × List String) :=
  match List.lookup inner_key restriction_types with
  | none =>
      .error (.valueError
        ("Malformed restriction: role name " ++ role_name ++
          " must be followed by" ++ "restriction type like `some`. Instead got " ++
          inner_key))
  | some restriction_type =>
      if valid_restriction_types.contains restriction_type then
        match resolved with
        | .error e => .error e
        | .ok final_value => .ok (objs ++ [.term final_value], rtns ++ [restriction_type])
      else .error (.valueError ("Unknown restriction_type: " ++ restriction_type))

mutual

/-- `PropertyRestrictionParser.parse_dict_to_lists` (recursive): unpack the
single key/value pair (`_unpack_dict` is inlined as pattern matching: its
`assert len(data_dict) == 1` fails on anything but a one-entry mapping, and
its `check_type(value, Union[dict, str, int, float])` rejects list values
with `TypeError`); a known role name pushes the role object, the token
`Inverse` pushes `Inverse(role)` of the inner role (a non-role after
`Inverse` raises `ValueError`, a non-dict inner value fails the assert), any
other key raises `ValueError`; then the quantifier dict is processed. -/
def parse_dict_to_lists (roles : List String) (nm : NameMap) (imported : Imported)
    (data_dict : YVal) (objs : List RObj) (rtns : List String) :
    Except PyErr (List RObj × List String) :=
  match data_dict with
  | .dict [(_, .list _)] =>
      .error (.typeError "check_type: expected Union[dict, str, int, float]")
  | .dict [(key, val)] =>
      if roles.contains key then
        checkParseAssert
          (_process_role_value_dict roles nm imported key val (objs ++ [.role key]) rtns)
      else if key == "Inverse" then
        match val with
        | .dict [(_, .list _)] =>
            .error (.typeError "check_type: expected Union[dict, str, int, float]")
        | .dict [(inner_key, .dict inner_entries)] =>
            if roles.contains inner_key then
              checkParseAssert
                (_process_role_value_dict roles nm imported key (.dict inner_entries)
                  (objs ++ [.inv inner_key]) rtns)
            else
              .error (.valueError
                ("A role name is expected after `Inverse:`. Instead got " ++
                  inner_key ++ "."))
        | .dict [(inner_key, _)] =>
            if roles.contains inner_key then .error .assertionError
            else
              .error (.valueError
                ("A role name is expected after `Inverse:`. Instead got " ++
                  inner_key ++ "."))
        | _ => .error .assertionError
      else
        .error (.valueError ("Unknown key: " ++ key ++ ". Expected role name."))
  | _ => .error .assertionError
termination_by sizeOf data_dict
decreasing_by all_goals (simp_wf <;> omega)

/-- `PropertyRestrictionParser._process_role_value_dict`: unpack the
quantifier level; scalar inner values resolve to the terminal object and end
the branch (`terminalScalar`), a dict inner value requires the quantifier
`some` (asserted) and recurses. -/
def _process_role_value_dict (roles : List String) (nm : NameMap) (imported : Imported)
    (role_name : String) (value_dict : YVal) (objs : List RObj) (rtns : List String) :
    Except PyErr (List RObj × List String) :=
  match value_dict with
  | .dict [(_, .list _)] =>
      .error (.typeError "check_type: expected Union[dict, str, int, float]")
  | .dict [(inner_key, .str s)] =>
      terminalScalar role_name inner_key (resolve_name nm imported (.str s) true) objs rtns
  | .dict [(inner_key, .num n)] =>
      terminalScalar role_name inner_key (.ok (.intLit n)) objs rtns
  | .dict [(inner_key, .fnum lit)] =>
      terminalScalar role_name inner_key (.ok (.floatLit lit)) objs rtns
  | .dict [(inner_key, .dict inner_entries)] =>
      match List.lookup inner_key restriction_types with
      | none =>
          .error (.valueError
            ("Malformed restriction: role name " ++ role_name ++
              " must be followed by" ++ "restriction type like `some`. Instead got " ++
              inner_key))
      | some restriction_type =>
          if valid_restriction_types.contains restriction_type then
            if restriction_type == "some" then
              parse_dict_to_lists roles nm imported (.dict inner_entries) objs
                (rtns ++ [restriction_type])
            else .error .assertionError
          else .error (.valueError ("Unknown restriction_type: " ++ restriction_type))
  | .dict _ => .error .assertionError
  | _ => .error .assertionError
termination_by sizeOf value_dict
decreasing_by all_goals (simp_wf <;> omega)

end

/-- The fold of `process_restriction_body`: for each `(restriction_type_name,
role_object)` pair of the reversed accumulators, build `role_object.
restriction_type_name(arg)`.  `getattr` on a non-role object (a terminal)
would raise `AttributeError`; the source additionally asserts the quantifier
is valid. -/
def foldRestrictions : List (String × RObj) → RExpr → Except PyErr RExpr
  | [], arg => .ok arg
  | (rtn, o) :: rest, arg =>
      if valid_restriction_types.contains rtn then
        match o with
        | .role r => foldRestrictions rest (.restrict (.plain r) rtn arg)
        | .inv r => foldRestrictions rest (.restrict (.inverse r) rtn arg)
        | .term _ => .error (.attributeError "terminal object has no quantifier attribute")
      else .error .assertionError

/-- `PropertyRestrictionParser.process_restriction_body`: run
`parse_dict_to_lists` on fresh accumulators, pop the final value, reverse both
sequences, check `len(objects) == len(restriction_type_names)`, and fold
right-to-left starting from the popped value. -/
def process_restriction_body (roles : List String) (nm : NameMap) (imported : Imported)
    (data_dict : YVal) : Except PyErr RExpr :=
  match parse_dict_to_lists roles nm imported data_dict [] [] with
  | .error e => .error e
  | .ok (objs, rtns) =>
      match objs.getLast? with
      | none => .error .indexError
      | some final_value =>
          let objsR := objs.dropLast.reverse
          let rtnsR := rtns.reverse
          if objsR.length == rtnsR.length then
            foldRestrictions (rtnsR.zip objsR) (.base final_value)
          else .error .assertionError

/-! Specification-side vocabulary for the restriction-fold claim: the shape of
a well-formed restriction body of depth `k`, and the expected innermost-first
restriction object. -/

/-- The nested single-key body `{r1: {q1: {r2: {q2: ... terminal}}}}` for the
role/quantifier layers `pairs` over the scalar `terminal`. -/
def mkBody (pairs : List (String × String)) (terminal : YVal) : YVal :=
  match pairs with
  | [] => terminal
  | (r, q) :: rest => .dict [(r, .dict [(q, mkBody rest terminal)])]

/-- The restriction the spec demands: `r1.q1(r2.q2(... (base)))`, i.e. the
innermost layer applied first. -/
def specFold (pairs : List (String × String)) (acc : RExpr) : RExpr :=
  match pairs with
  | [] => acc
  | (r, q) :: rest => .restrict (.plain r) q (specFold rest acc)

/-- Well-formedness of the layer list: nonempty, every layer's role declared,
every quantifier before the last equal to `some` (its inner value is a dict),
and the last quantifier `some` or `value` (its inner value is the scalar
terminal). -/
def wfPairs (roles : List String) : List (String × String) → Bool
  | [] => false
  | [(r, q)] => roles.contains r && (q == "some" || q == "value")
  | (r, q) :: rest => roles.contains r && q == "some" && wfPairs roles rest

/-- What the innermost scalar resolves to (strings via
`resolve_name(..., accept_unquoted_strs=True)`, numbers to themselves). -/
def scalarEntity (nm : NameMap) (imported : Imported) : YVal → Option Entity
  | .str s =>
      match resolve_name nm imported (.str s) true with
      | .ok e => some e
      | .error _ => none
  | .num n => some (.intLit n)
  | .fnum lit => some (.floatLit lit)
  | _ => none

theorem specFold_append (l1 l2 : List (String × String)) (acc : RExpr) :
    specFold (l1 ++ l2) acc = specFold l1 (specFold l2 acc) := by
  induction l1 with
  | nil => rfl
  | cons hd tl ih => obtain ⟨r, q⟩ := hd; simp [specFold, ih]

theorem specFold_depth (pairs : List (String × String)) (acc : RExpr) :
    (specFold pairs acc).depth = pairs.length + acc.depth := by
  induction pairs generalizing acc with
  | nil => simp [specFold]
  | cons hd tl ih =>
      obtain ⟨r, q⟩ := hd
      simp [specFold, RExpr.depth, ih]
      omega

theorem foldRestrictions_zip :
    ∀ (qs : List (String × String)) (acc : RExpr),
      (∀ p ∈ qs, p.2 = "some" ∨ p.2 = "value") →
      foldRestrictions
          (List.zipWith Prod.mk (qs.map Prod.snd) (qs.map (fun p => RObj.role p.1))) acc =
        .ok (specFold qs.reverse acc) := by
  intro qs
  induction qs with
  | nil => intro acc _; rfl
  | cons hd tl ih =>
      intro acc hmem
      obtain ⟨r, q⟩ := hd
      have hq : q = "some" ∨ q = "value" := hmem (r, q) (by simp)
      have hvq : valid_restriction_types.contains q = true := by
        rcases hq with rfl | rfl <;> rfl
      simp only [List.map_cons, List.zipWith_cons_cons]
      simp only [foldRestrictions]
      rw [if_pos hvq]
      rw [ih (.restrict (.plain r) q acc) (fun p hp => hmem p (by simp [hp]))]
      simp [List.reverse_cons, specFold_append, specFold]

theorem wfPairs_mem (roles : List String) :
    ∀ pairs, wfPairs roles pairs = true →
      ∀ p ∈ pairs, p.1 ∈ roles ∧ (p.2 = "some" ∨ p.2 = "value") := by
  intro pairs
  induction pairs with
  | nil => intro h; simp [wfPairs] at h
  | cons hd tl ih =>
      intro h p hp
      obtain ⟨r, q⟩ := hd
      cases tl with
      | nil =>
          simp [wfPairs] at h
          rcases List.mem_singleton.mp hp with rfl
          exact ⟨h.1, h.2⟩
      | cons hd2 tl2 =>
          simp only [wfPairs, Bool.and_eq_true, beq_iff_eq] at h
          rcases List.mem_cons.mp hp with rfl | hp2
          · exact ⟨by simpa using h.1.1, Or.inl h.1.2⟩
          · exact ih h.2 p hp2

theorem _process_scalar_ok (roles : List String) (nm : NameMap) (imported : Imported)
    (r q : String) (terminal : YVal) (e : Entity) (objs : List RObj) (rtns : List String)
    (hq : q = "some" ∨ q = "value")
    (hterm : scalarEntity nm imported terminal = some e) :
    _process_role_value_dict roles nm imported r (.dict [(q, terminal)]) objs rtns =
      .ok (objs ++ [.term e], rtns ++ [q]) := by
  have hlk : List.lookup q restriction_types = some q := by
    rcases hq with rfl | rfl <;> rfl
  have hvqb : valid_restriction_types.contains q = true := by
    rcases hq with rfl | rfl <;> rfl
  have hvqm : q ∈ valid_restriction_types := by
    rcases hq with rfl | rfl <;> decide
  cases terminal with
  | str s =>
      cases hres : resolve_name nm imported (.str s) true with
      | error err => exfalso; simp [scalarEntity, hres] at hterm
      | ok e2 =>
          have he : e2 = e := by simpa [scalarEntity, hres] using hterm
          subst he
          rw [_process_role_value_dict.eq_def]
          simp [terminalScalar, hlk, hvqb, hvqm, hres]
  | num n =>
      have he : Entity.intLit n = e := by simpa [scalarEntity] using hterm
      subst he
      rw [_process_role_value_dict.eq_def]
      simp [terminalScalar, hlk, hvqb, hvqm]
  | fnum lit =>
      have he : Entity.floatLit lit = e := by simpa [scalarEntity] using hterm
      subst he
      rw [_process_role_value_dict.eq_def]
      simp [terminalScalar, hlk, hvqb, hvqm]
  | list l => exfalso; simp [scalarEntity] at hterm
  | dict d => exfalso; simp [scalarEntity] at hterm

theorem parse_role_step (roles : List String) (nm : NameMap) (imported : Imported)
    (r : String) (val : YVal) (objs : List RObj) (rtns : List String)
    (hr : roles.contains r = true) (hnl : ∀ l, val ≠ .list l) :
    parse_dict_to_lists roles nm imported (.dict [(r, val)]) objs rtns =
      checkParseAssert
        (_process_role_value_dict roles nm imported r val (objs ++ [.role r]) rtns) := by
  have hm : r ∈ roles := by simpa using hr
  cases val
  case list l => exact absurd rfl (hnl l)
  all_goals (rw [parse_dict_to_lists.eq_def]; simp [hr, hm])

theorem _process_some_dict (roles : List String) (nm : NameMap) (imported : Imported)
    (r : String) (ents : List (String × YVal)) (objs : List RObj) (rtns : List String) :
    _process_role_value_dict roles nm imported r (.dict [("some", .dict ents)]) objs rtns =
      parse_dict_to_lists roles nm imported (.dict ents) objs (rtns ++ ["some"]) := by
  rw [_process_role_value_dict.eq_def]
  simp [show List.lookup "some" restriction_types = some "some" from rfl,
    show valid_restriction_types.contains "some" = true from rfl,
    show ("some" : String) ∈ valid_restriction_types from by decide]

theorem parse_mkBody (roles : List String) (nm : NameMap) (imported : Imported) :
    ∀ (pairs : List (String × String)) (terminal : YVal) (e : Entity)
      (objs : List RObj) (rtns : List String),
      wfPairs roles pairs = true →
      scalarEntity nm imported terminal = some e →
      objs.length = rtns.length →
      parse_dict_to_lists roles nm imported (mkBody pairs terminal) objs rtns =
        .ok (objs ++ pairs.map (fun p => RObj.role p.1) ++ [.term e],
          rtns ++ pairs.map Prod.snd) := by
  intro pairs
  induction pairs with
  | nil => intro terminal e objs rtns hwf _ _; simp [wfPairs] at hwf
  | cons hd tl ih =>
      intro terminal e objs rtns hwf hterm hlen
      obtain ⟨r, q⟩ := hd
      cases tl with
      | nil =>
          simp [wfPairs] at hwf
          obtain ⟨hr, hq⟩ := hwf
          have hrb : roles.contains r = true := by simpa using hr
          have hstep := _process_scalar_ok roles nm imported r q terminal e
            (objs ++ [.role r]) rtns hq hterm
          simp only [mkBody]
          rw [parse_role_step roles nm imported r (.dict [(q, terminal)]) objs rtns hrb
            (fun l h => YVal.noConfusion h)]
          rw [hstep]
          simp [checkParseAssert, hlen]
      | cons hd2 tl2 =>
          simp only [wfPairs, Bool.and_eq_true, beq_iff_eq] at hwf
          obtain ⟨⟨hrb, hq⟩, hwf2⟩ := hwf
          subst hq
          obtain ⟨r2, q2⟩ := hd2
          have hinner := ih terminal e (objs ++ [.role r]) (rtns ++ ["some"]) hwf2 hterm
            (by simp [hlen])
          simp only [mkBody] at hinner ⊢
          rw [parse_role_step roles nm imported r
            (.dict [("some", .dict [(r2, .dict [(q2, mkBody tl2 terminal)])])]) objs rtns hrb
            (fun l h => YVal.noConfusion h)]
          rw [_process_some_dict, hinner]
          simp only [checkParseAssert]
          simp [hlen]
          try omega

/-- C1: for every well-formed restriction body of nesting depth `k` (nested
single-key dicts alternating declared role names and quantifiers, ending in a
scalar terminal), `process_restriction_body` returns the innermost-first
restriction `r1.q1(r2.q2(...(terminal)))` — for `{A: {some: {B: {value: C}}}}`
the object `A.some(B.value(C))` — and the number of restriction-application
layers of the output equals the input nesting depth. -/
theorem restriction_fold_correct (roles : List String) (nm : NameMap) (imported : Imported)
    (pairs : List (String × String)) (terminal : YVal) (e : Entity)
    (hwf : wfPairs roles pairs = true)
    (hterm : scalarEntity nm imported terminal = some e) :
    process_restriction_body roles nm imported (mkBody pairs terminal) =
      .ok (specFold pairs (.base (.term e))) ∧
    (specFold pairs (.base (.term e))).depth = pairs.length := by
  constructor
  · have hp := parse_mkBody roles nm imported pairs terminal e [] [] hwf hterm rfl
    simp only [List.nil_append] at hp
    simp only [process_restriction_body, hp, List.getLast?_concat, List.dropLast_concat,
      List.length_reverse, List.length_map, beq_self_eq_true, if_true]
    rw [show ((pairs.map Prod.snd).reverse).zip
          ((pairs.map (fun p => RObj.role p.1)).reverse) =
        List.zipWith Prod.mk (pairs.reverse.map Prod.snd)
          (pairs.reverse.map (fun p => RObj.role p.1)) by simp [List.zip]]
    rw [foldRestrictions_zip pairs.reverse (.base (.term e))
      (fun p hp2 => (wfPairs_mem roles pairs hwf p (List.mem_reverse.mp hp2)).2)]
    rw [List.reverse_reverse]
  · rw [specFold_depth]
    rfl

/-- C1 witness: the reference body `{A: {some: {B: {value: C}}}}` yields
`A.some(B.value(C))` with two restriction layers. -/
theorem restriction_fold_correct_witness :
    process_restriction_body ["A", "B"] [] []
        (mkBody [("A", "some"), ("B", "value")] (.str "C")) =
      .ok (specFold [("A", "some"), ("B", "value")]
        (.base (.term (.strLit "C")))) ∧
    (specFold [("A", "some"), ("B", "value")] (.base (.term (.strLit "C")))).depth = 2 :=
  restriction_fold_correct ["A", "B"] [] [] [("A", "some"), ("B", "value")]
    (.str "C") (.strLit "C") (by rfl) (by rfl)

/-- C3 counterexample: on the body `{has_color: {some: x}}` with only
`lives_in` declared, `process_restriction_body` raises a plain `ValueError`,
not an `UnknownEntityError` as the claim states (in the source,
`UnknownEntityError` is a strict subclass of `ValueError` and is not the
class raised here). -/
theorem unknown_role_error_class_cex :
    process_restriction_body ["lives_in"] [] []
        (.dict [("has_color", .dict [("some", .str "x")])]) =
      .error (.valueError "Unknown key: has_color. Expected role name.") ∧
    (PyErr.valueError "Unknown key: has_color. Expected role name."
      ).isUnknownEntityError = false ∧
    containsSub "Unknown key: has_color. Expected role name." "has_color" = true := by
  refine ⟨?_, rfl, by decide⟩
  unfold process_restriction_body
  rw [parse_dict_to_lists.eq_def]
  rfl

/-- C3 (amended): a restriction body whose outermost key is neither a
declared role name nor `Inverse` makes `parse_dict_to_lists` — and hence
`process_restriction_body` — fail with a `ValueError` (the parent class of
`UnknownEntityError`, but not `UnknownEntityError` itself) whose message
names exactly that undeclared role name. -/
theorem unknown_role_valueerror (roles : List String) (nm : NameMap) (imported : Imported)
    (k : String) (v : YVal) (objs : List RObj) (rtns : List String)
    (hrole : roles.contains k = false) (hinv : k ≠ "Inverse")
    (hv : ∀ l, v ≠ .list l) :
    parse_dict_to_lists roles nm imported (.dict [(k, v)]) objs rtns =
      .error (.valueError ("Unknown key: " ++ k ++ ". Expected role name.")) ∧
    process_restriction_body roles nm imported (.dict [(k, v)]) =
      .error (.valueError ("Unknown key: " ++ k ++ ". Expected role name.")) ∧
    (PyErr.valueError ("Unknown key: " ++ k ++ ". Expected role name.")
      ).isValueErrorClass = true ∧
    (PyErr.valueError ("Unknown key: " ++ k ++ ". Expected role name.")
      ).isUnknownEntityError = false := by
  have hbeq : (k == "Inverse") = false := by
    simp [hinv]
  have hmem : k ∉ roles := by simpa using hrole
  have hparse : ∀ (o : List RObj) (t : List String),
      parse_dict_to_lists roles nm imported (.dict [(k, v)]) o t =
        .error (.valueError ("Unknown key: " ++ k ++ ". Expected role name.")) := by
    intro o t
    cases v with
    | list l => exact absurd rfl (hv l)
    | str s => rw [parse_dict_to_lists.eq_def]; simp [hrole, hbeq, hmem, hinv]
    | num n => rw [parse_dict_to_lists.eq_def]; simp [hrole, hbeq, hmem, hinv]
    | fnum lit => rw [parse_dict_to_lists.eq_def]; simp [hrole, hbeq, hmem, hinv]
    | dict d => rw [parse_dict_to_lists.eq_def]; simp [hrole, hbeq, hmem, hinv]
  refine ⟨hparse objs rtns, ?_, rfl, rfl⟩
  unfold process_restriction_body
  rw [hparse [] []]

/-- C3 witness for the amended statement. -/
theorem unknown_role_valueerror_witness :
    parse_dict_to_lists ["lives_in"] [] []
        (.dict [("has_color", .dict [("some", .str "x")])]) [] [] =
      .error (.valueError ("Unknown key: " ++ "has_color" ++ ". Expected role name.")) ∧
    process_restriction_body ["lives_in"] [] []
        (.dict [("has_color", .dict [("some", .str "x")])]) =
      .error (.valueError ("Unknown key: " ++ "has_color" ++ ". Expected role name.")) ∧
    (PyErr.valueError ("Unknown key: " ++ "has_color" ++ ". Expected role name.")
      ).isValueErrorClass = true ∧
    (PyErr.valueError ("Unknown key: " ++ "has_color" ++ ". Expected role name.")
      ).isUnknownEntityError = false :=
  unknown_role_valueerror ["lives_in"] [] [] "has_color" (.dict [("some", .str "x")])
    [] [] (by rfl) (by decide) (fun l h => by simp at h)

/-- C5 counterexample: `resolve_name` on the quoted token `'red'` returns the
token itself — the quote markers are not stripped by `resolve_name` (the
source comments that the visible outer quote pair was already removed by the
YAML parser before the token reaches it). -/
theorem quoted_string_not_stripped_cex :
    resolve_name [] [] (.str "'red'") false = .ok (.strLit "'red'") ∧
    "'red'" ≠ "red" :=
  ⟨by rfl, by decide⟩

/-- C5 (amended): tokens matching the quoted-string pattern are returned as
string literals unchanged — quote markers kept — and numeric tokens (int or
float) pass through unchanged. -/
theorem resolve_name_literal_passthrough (nm : NameMap) (imported : Imported)
    (s : String) (n : Int) (lit : String) (accept : Bool)
    (hq : quotedStringMatch s = true) :
    resolve_name nm imported (.str s) accept = .ok (.strLit s) ∧
    resolve_name nm imported (.int n) accept = .ok (.intLit n) ∧
    resolve_name nm imported (.float lit) accept = .ok (.floatLit lit) := by
  refine ⟨?_, rfl, rfl⟩
  simp [resolve_name, hq]

/-- C5 witness for the amended statement. -/
theorem resolve_name_literal_passthrough_witness :
    resolve_name [] [] (.str "'red'") false = .ok (.strLit "'red'") ∧
    resolve_name [] [] (.int 5) false = .ok (.intLit 5) ∧
    resolve_name [] [] (.float "2.5") false = .ok (.floatLit "2.5") :=
  resolve_name_literal_passthrough [] [] "'red'" 5 "2.5" false (by rfl)

/-! The tree-parse machinery: `TreeParseFunction`, the registry
`normal_parse_functions`, `OntologyManager._resolve_yaml_key` and
`OntologyManager.process_tree`. -/

mutual

/-- Python `repr` of a YAML value, as interpolated into error messages
(CPython shows plain strings in single quotes). -/
def reprYVal : YVal → String
  | .str s => "'" ++ s ++ "'"
  | .num n => toString n
  | .fnum lit => lit
  | .list elems => "[" ++ reprYList elems ++ "]"
  | .dict entries => "\x7b" ++ reprYDict entries ++ "\x7d"
termination_by v => sizeOf v
decreasing_by all_goals (simp_wf <;> omega)

def reprYList : List YVal → String
  | [] => ""
  | [v] => reprYVal v
  | v :: rest => reprYVal v ++ ", " ++ reprYList rest
termination_by l => sizeOf l
decreasing_by all_goals (simp_wf <;> omega)

def reprYDict : List (String × YVal) → String
  | [] => ""
  | [(k, v)] => "'" ++ k ++ "': " ++ reprYVal v
  | (k, v) :: rest => "'" ++ k ++ "': " ++ reprYVal v ++ ", " ++ reprYDict rest
termination_by l => sizeOf l
decreasing_by all_goals (simp_wf <;> omega)

end

/-- `OntologyManager._resolve_yaml_key`: unified error message for a missing
key.  The message interpolates Python's `repr` of the searched dict, threaded
here as `reprData` (for `process_tree` the searched dict is the
parse-function table itself, so the message shows that table, not the
document). -/
def _resolve_yaml_key {α : Type} (data_dict : List (String × α)) (key : String)
    (reprData : String) : Except PyErr α :=
  match List.lookup key data_dict with
  | some v => .ok v
  | none =>
      .error (.keyError ("Key `" ++ key ++ "` not found in current part of in yaml-file: " ++
        "\ncomplete data:\n" ++ reprData))

/-- The `struct_wrapper` argument of `containerFactoryFactory`:
`None` (identity), `atom_or_And` or `atom_or_Or`. -/
inductive StructWrapKind where
  | idWrap
  | wrapAtomOrAnd
  | wrapAtomOrOr
deriving DecidableEq, Repr

/-- The `outer_func` of a `TreeParseFunction`: `identity_func`, a container
factory made by `containerFactoryFactory`, or one of the owlready
constructors `Or` / `And` / `OneOf`. -/
inductive OuterKind where
  | idOut
  | containerOut (name : String) (sw : StructWrapKind)
  | orOut
  | andOut
  | oneOfOut
deriving DecidableEq, Repr

/-- The `inner_func` of a `TreeParseFunction`: `identity_func` or
`OntologyManager.resolve_key_and_value`. -/
inductive InnerKind where
  | idIn
  | resolveKV
deriving DecidableEq, Repr

/-- The constructor arguments of a `TreeParseFunction`
(`create_nm_parse_function`).  `accept_unquoted_strings` is initialised to
`False` on every instance and never changed, so it is not a field here. -/
structure TPFSpec where
  name : String
  outer : OuterKind
  inner : InnerKind
  resolve_names : Bool
  ensure_list_flag : Bool
deriving DecidableEq, Repr

/-- One entry of `normal_parse_functions`: a `TreeParseFunction`, or the one
flat function registered via `create_nm_flat_parse_function`
(`identity_func`, under the key `__create_proxy_individual`). -/
inductive RegEntry where
  | tpf (spec : TPFSpec)
  | flat
deriving DecidableEq, Repr

/-- A value produced by the tree-parse machinery: a resolved entity, a raw
(unresolved) sub-document, a list of results, an `OntoContainer` (name plus
wrapped data), an `Or`/`And`/`OneOf` construct, or the resolved key-value
mapping returned by `resolve_key_and_value`. -/
inductive PVal where
  | ent (e : Entity)
  | raw (v : YVal)
  | listV (vs : List PVal)
  | containerV (name : String) (data : PVal)
  | orV (vs : List PVal)
  | andV (vs : List PVal)
  | oneOfV (vs : List PVal)
  | kvV (entries : List (Entity × PVal))

/-- `OntologyManager.atom_or_And`: collapse a singleton list to its element,
wrap anything else in an `And` connective. -/
def atom_or_And (arg : List PVal) : PVal :=
  match arg with
  | [v] => v
  | _ => .andV arg

/-- `OntologyManager.atom_or_Or`: collapse a singleton list to its element,
wrap anything else in an `Or` connective. -/
def atom_or_Or (arg : List PVal) : PVal :=
  match arg with
  | [v] => v
  | _ => .orV arg

/-- Apply a `struct_wrapper` to the collected results (`None` means
`identity_func`, i.e. keep the list). -/
def applyStructWrap : StructWrapKind → List PVal → PVal
  | .idWrap, arg => .listV arg
  | .wrapAtomOrAnd, arg => atom_or_And arg
  | .wrapAtomOrOr, arg => atom_or_Or arg

/-- Apply the registered `outer_func` to the collected results.  A container
factory wraps the (struct-wrapped) data in an `OntoContainer` carrying the
keyword name. -/
def applyOuter : OuterKind → List PVal → PVal
  | .idOut, results => .listV results
  | .containerOut name sw, results => .containerV name (applyStructWrap sw results)
  | .orOut, results => .orV results
  | .andOut, results => .andV results
  | .oneOfOut, results => .oneOfV results

/-- Element-wise resolution of a list value in `resolve_key_and_value`
(elements are `yaml_Atom`s; a structured element reaches `resolve_name`,
whose final branch raises `TypeError`). -/
def rkv_list (nm : NameMap) (imported : Imported) : List YVal → Except PyErr (List PVal)
  | [] => .ok []
  | elt :: rest =>
      match elt with
      | .str s =>
          match resolve_name nm imported (.str s) true with
          | .error e => .error e
          | .ok e =>
              match rkv_list nm imported rest with
              | .error e2 => .error e2
              | .ok vs => .ok (.ent e :: vs)
      | .num n =>
          match rkv_list nm imported rest with
          | .error e2 => .error e2
          | .ok vs => .ok (.ent (.intLit n) :: vs)
      | .fnum lit =>
          match rkv_list nm imported rest with
          | .error e2 => .error e2
          | .ok vs => .ok (.ent (.floatLit lit) :: vs)
      | _ =>
          .error (.typeError "unexpected type of object in method resolve_name")

/-- One value of `OntologyManager.resolve_key_and_value`: strings resolve
with `accept_unquoted_strs=True`, lists resolve element-wise, numbers pass
through, anything else raises `TypeError`.  (A dict value is already rejected
by the `check_type` at the top of `resolve_key_and_value`; both paths are a
`TypeError`.) -/
def rkv_value (nm : NameMap) (imported : Imported) : YVal → Except PyErr PVal
  | .str s =>
      match resolve_name nm imported (.str s) true with
      | .error e => .error e
      | .ok e => .ok (.ent e)
  | .num n => .ok (.ent (.intLit n))
  | .fnum lit => .ok (.ent (.floatLit lit))
  | .list elems =>
      match rkv_list nm imported elems with
      | .error e => .error e
      | .ok vs => .ok (.listV vs)
  | .dict _ =>
      .error (.typeError "check_type: expected Dict[str, Union[str, list, int, float]]")

/-- `OntologyManager.resolve_key_and_value`: resolve every key (an error if
unknown) and every value (strings may stay literal). -/
def resolve_key_and_value (nm : NameMap) (imported : Imported) :
    List (String × YVal) → Except PyErr (List (Entity × PVal))
  | [] => .ok []
  | (raw_key, raw_value) :: rest =>
      match resolve_name nm imported (.str raw_key) false with
      | .error e => .error e
      | .ok key =>
          match rkv_value nm imported raw_value with
          | .error e => .error e
          | .ok value =>
              match resolve_key_and_value nm imported rest with
              | .error e => .error e
              | .ok rest2 => .ok ((key, value) :: rest2)

/-- `TreeParseFunction._process_name`: with `resolve_names` set, the element
must be a string (asserted) and is resolved with
`accept_unquoted_strings = False`; otherwise it is passed through raw. -/
def TPF_process_name (nm : NameMap) (imported : Imported) (resolve_names : Bool)
    (obj : YVal) : Except PyErr PVal :=
  if resolve_names then
    match obj with
    | .str s =>
        match resolve_name nm imported (.str s) false with
        | .error e => .error e
        | .ok e => .ok (.ent e)
    | _ => .error .assertionError
  else .ok (.raw obj)

/-- Dispatch the registered `inner_func`. -/
def applyInner (nm : NameMap) (imported : Imported) : InnerKind → PVal → Except PyErr PVal
  | .idIn, v => .ok v
  | .resolveKV, v =>
      match v with
      | .raw (.dict entries) =>
          match resolve_key_and_value nm imported entries with
          | .error e => .error e
          | .ok kvs => .ok (.kvV kvs)
      | _ =>
          .error (.typeError "check_type: expected Dict[str, Union[str, list, int, float]]")

/-- The list branch of `TreeParseFunction.__call__`:
`[self.inner_func(self._process_name(elt)) for elt in arg]` — elements are
only name-processed and inner-transformed, never dispatched recursively. -/
def tpfElems (nm : NameMap) (imported : Imported) (spec : TPFSpec) :
    List YVal → Except PyErr (List PVal)
  | [] => .ok []
  | elt :: rest =>
      match TPF_process_name nm imported spec.resolve_names elt with
      | .error e => .error e
      | .ok pv =>
          match applyInner nm imported spec.inner pv with
          | .error e => .error e
          | .ok pv2 =>
              match tpfElems nm imported spec rest with
              | .error e => .error e
              | .ok rest2 => .ok (pv2 :: rest2)

mutual

/-- `TreeParseFunction.__call__`: lists map `inner ∘ process_name` over the
elements and apply `outer_func`; dicts dispatch every value to the parse
function registered under its key (`normal_parse_functions.get(key)` — a
missing key yields `None`, and calling `None` raises `TypeError`); a string
is either wrapped as a singleton list (`ensure_list_flag`; written here as
the one-step unfolding of the list branch on `[arg]`) or name-processed
directly, bypassing `outer_func`/`inner_func`; any other type raises
`TypeError`. -/
def tpfCall (reg : List (String × RegEntry)) (nm : NameMap) (imported : Imported)
    (spec : TPFSpec) (arg : YVal) : Except PyErr PVal :=
  match arg with
  | .list elems =>
      match tpfElems nm imported spec elems with
      | .error e => .error e
      | .ok results => .ok (applyOuter spec.outer results)
  | .dict entries =>
      match tpfDict reg nm imported entries with
      | .error e => .error e
      | .ok results => .ok (applyOuter spec.outer results)
  | .str s =>
      if spec.ensure_list_flag then
        match tpfElems nm imported spec [.str s] with
        | .error e => .error e
        | .ok results => .ok (applyOuter spec.outer results)
      else
        TPF_process_name nm imported spec.resolve_names (.str s)
  | _ =>
      .error (.typeError ("unexpected type of value in TreeParseFunction " ++
        spec.name ++ "."))
termination_by sizeOf arg
decreasing_by all_goals (simp_wf <;> omega)

/-- The dict branch of `TreeParseFunction.__call__`: for each `(key, value)`
pair, look the key up in `normal_parse_functions` with `.get` and call the
result — `None` for an unregistered keyword, hence `TypeError: 'NoneType'
object is not callable`; the flat entry is `identity_func`. -/
def tpfDict (reg : List (String × RegEntry)) (nm : NameMap) (imported : Imported) :
    List (String × YVal) → Except PyErr (List PVal)
  | [] => .ok []
  | (key, value) :: rest =>
      match List.lookup key reg with
      | none => .error (.typeError "'NoneType' object is not callable")
      | some (.tpf spec2) =>
          match tpfCall reg nm imported spec2 value with
          | .error e => .error e
          | .ok r =>
              match tpfDict reg nm imported rest with
              | .error e => .error e
              | .ok rest2 => .ok (r :: rest2)
      | some .flat =>
          match tpfDict reg nm imported rest with
          | .error e => .error e
          | .ok rest2 => .ok (.raw value :: rest2)
termination_by l => sizeOf l
decreasing_by all_goals (simp_wf <;> omega)

end

/-- The loop body of `OntologyManager.process_tree`: look each key up via
`_resolve_yaml_key` (whose message shows `regRepr`, the repr of the
parse-function table) and apply the parse function to the value, wrapping an
`UnknownEntityError` with the repr of the processed dict. -/
def process_tree_entries (reg : List (String × RegEntry)) (nm : NameMap)
    (imported : Imported) (regRepr dictRepr : String) :
    List (String × YVal) → Except PyErr (List (String × PVal))
  | [] => .ok []
  | (key, value) :: rest =>
      match _resolve_yaml_key reg key regRepr with
      | .error e => .error e
      | .ok entry =>
          let r : Except PyErr PVal :=
            match entry with
            | .tpf spec => tpfCall reg nm imported spec value
            | .flat => .ok (.raw value)
          match r with
          | .error (.unknownEntityError m) =>
              .error (.unknownEntityError (m ++ " while processing dict: " ++ dictRepr))
          | .error e => .error e
          | .ok pv =>
              match process_tree_entries reg nm imported regRepr dictRepr rest with
              | .error e => .error e
              | .ok rest2 => .ok ((key, pv) :: rest2)

/-- `OntologyManager.process_tree` (with the default `squeeze=False`):
requires a nonempty dict (asserted; `.items()` on a non-dict raises
`AttributeError`) and processes every `(key, value)` pair. -/
def process_tree (reg : List (String × RegEntry)) (nm : NameMap) (imported : Imported)
    (regRepr : String) (normal_dict : YVal) : Except PyErr (List (String × PVal)) :=
  match normal_dict with
  | .dict [] => .error .assertionError
  | .dict entries =>
      process_tree_entries reg nm imported regRepr (reprYVal (.dict entries)) entries
  | _ => .error (.attributeError "object has no attribute items")

/-- `normal_parse_functions` exactly as registered in
`OntologyManager.__init__`. -/
def defaultRegistry : List (String × RegEntry) :=
  [("types", .tpf ⟨"types", .idOut, .idIn, true, false⟩),
   ("EquivalentTo", .tpf ⟨"EquivalentTo", .containerOut "EquivalentTo" .wrapAtomOrAnd,
      .idIn, true, false⟩),
   ("SubClassOf", .tpf ⟨"SubClassOf", .idOut, .idIn, true, true⟩),
   ("Domain", .tpf ⟨"Domain", .containerOut "Domain" .wrapAtomOrOr, .idIn, true, true⟩),
   ("Range", .tpf ⟨"Range", .containerOut "Range" .wrapAtomOrOr, .idIn, true, true⟩),
   ("Facts", .tpf ⟨"Facts", .containerOut "Facts" .idWrap, .resolveKV, false, false⟩),
   ("Characteristics", .tpf ⟨"Characteristics", .containerOut "Characteristics" .idWrap,
      .idIn, true, false⟩),
   ("Inverse", .tpf ⟨"Inverse", .containerOut "Inverse" .idWrap, .idIn, true, false⟩),
   ("Subject", .tpf ⟨"Subject", .containerOut "Subject" .idWrap, .idIn, true, false⟩),
   ("Body", .tpf ⟨"Body", .containerOut "Body" .idWrap, .idIn, true, false⟩),
   ("annotations", .tpf ⟨"annotations", .idOut, .idIn, false, true⟩),
   ("labels", .tpf ⟨"labels", .idOut, .idIn, false, true⟩),
   ("__rc_facts", .tpf ⟨"__rc_facts", .idOut, .resolveKV, false, false⟩),
   ("X_associatedWithClasses", .tpf ⟨"X_associatedWithClasses", .idOut, .idIn, true, true⟩),
   ("X_associatedRoles", .tpf ⟨"X_associatedRoles",
      .containerOut "X_associatedRoles" .idWrap, .resolveKV, false, false⟩),
   ("__create_proxy_individual", .flat),
   ("OneOf", .tpf ⟨"OneOf", .oneOfOut, .idIn, true, false⟩),
   ("Or", .tpf ⟨"Or", .orOut, .idIn, true, false⟩),
   ("And", .tpf ⟨"And", .andOut, .idIn, true, false⟩)]

theorem containsSub_middle (a k b : String) : containsSub (a ++ k ++ b) k = true := by
  unfold containsSub
  apply List.any_eq_true.mpr
  have hdata : (a ++ k ++ b).data = a.data ++ (k.data ++ b.data) := by
    simp [String.data_append, List.append_assoc]
  refine ⟨a.data.length, List.mem_range.mpr ?_, ?_⟩
  · rw [hdata]
    simp [List.length_append]
    omega
  · rw [hdata, List.drop_left, List.isPrefixOf_iff_prefix]
    exact List.prefix_append _ _

/-- C4 counterexample: inside a `TreeParseFunction`'s recursive evaluation
(here the inner dict handed to the `EquivalentTo` parse function), an
unregistered keyword makes parsing fail with `TypeError` (the registry lookup
`normal_parse_functions.get(key)` returns `None` and calling `None` raises
`TypeError`), not with a `KeyError` naming the keyword. -/
theorem unknown_keyword_nested_typeerror_cex :
    process_tree defaultRegistry [] [] "<normal_parse_functions>"
        (.dict [("EquivalentTo", .dict [("bad_kw", .str "x")])]) =
      .error (.typeError "'NoneType' object is not callable") ∧
    (PyErr.typeError "'NoneType' object is not callable").isKeyError = false := by
  constructor
  · have h1 : tpfDict defaultRegistry [] [] [("bad_kw", .str "x")] =
        .error (.typeError "'NoneType' object is not callable") := by
      rw [tpfDict.eq_def]
      simp [show List.lookup "bad_kw" defaultRegistry = none from rfl]
    have h2 : tpfCall defaultRegistry [] []
        ⟨"EquivalentTo", .containerOut "EquivalentTo" .wrapAtomOrAnd, .idIn, true, false⟩
        (.dict [("bad_kw", .str "x")]) =
        .error (.typeError "'NoneType' object is not callable") := by
      rw [tpfCall.eq_def]
      simp [h1]
    simp [process_tree, process_tree_entries, _resolve_yaml_key,
      show List.lookup "EquivalentTo" defaultRegistry =
        some (.tpf ⟨"EquivalentTo", .containerOut "EquivalentTo" .wrapAtomOrAnd,
          .idIn, true, false⟩) from rfl, h2]
  · rfl

/-- C4 (amended): an unknown keyword fails differently depending on the
level.  At the `process_tree` dispatch level the failure is a `KeyError`
naming the missing keyword (the message interpolates the parse-function
table, `regRepr`, not the offending sub-document; the offending statement is
appended separately by the top-level exception wrapper in `load_ontology`).
A dict encountered inside a `TreeParseFunction`'s recursive evaluation
instead fails with `TypeError` from calling `None`, which names neither. -/
theorem unknown_keyword_dispatch (reg : List (String × RegEntry)) (nm : NameMap)
    (imported : Imported) (regRepr : String) (spec : TPFSpec)
    (k : String) (v : YVal) (rest : List (String × YVal))
    (hk : List.lookup k reg = none) :
    process_tree reg nm imported regRepr (.dict ((k, v) :: rest)) =
      .error (.keyError ("Key `" ++ k ++ "` not found in current part of in yaml-file: " ++
        "\ncomplete data:\n" ++ regRepr)) ∧
    containsSub ("Key `" ++ k ++ "` not found in current part of in yaml-file: " ++
        "\ncomplete data:\n" ++ regRepr) k = true ∧
    tpfCall reg nm imported spec (.dict ((k, v) :: rest)) =
      .error (.typeError "'NoneType' object is not callable") ∧
    (PyErr.typeError "'NoneType' object is not callable").isKeyError = false := by
  refine ⟨?_, ?_, ?_, rfl⟩
  · simp [process_tree, process_tree_entries, _resolve_yaml_key, hk]
  · have h := containsSub_middle "Key `" k
      ("` not found in current part of in yaml-file: " ++ "\ncomplete data:\n" ++ regRepr)
    simpa [String.append_assoc] using h
  · rw [tpfCall.eq_def]
    have h1 : tpfDict reg nm imported ((k, v) :: rest) =
        .error (.typeError "'NoneType' object is not callable") := by
      rw [tpfDict.eq_def]
      simp [hk]
    simp [h1]

/-- C4 witness for the amended statement. -/
theorem unknown_keyword_dispatch_witness :
    process_tree defaultRegistry [] [] "<normal_parse_functions>"
        (.dict [("bad_kw", .str "x")]) =
      .error (.keyError ("Key `" ++ "bad_kw" ++
        "` not found in current part of in yaml-file: " ++
        "\ncomplete data:\n" ++ "<normal_parse_functions>")) ∧
    containsSub ("Key `" ++ "bad_kw" ++ "` not found in current part of in yaml-file: " ++
        "\ncomplete data:\n" ++ "<normal_parse_functions>") "bad_kw" = true ∧
    tpfCall defaultRegistry [] [] ⟨"types", .idOut, .idIn, true, false⟩
        (.dict [("bad_kw", .str "x")]) =
      .error (.typeError "'NoneType' object is not callable") ∧
    (PyErr.typeError "'NoneType' object is not callable").isKeyError = false :=
  unknown_keyword_dispatch defaultRegistry [] [] "<normal_parse_functions>"
    ⟨"types", .idOut, .idIn, true, false⟩ "bad_kw" (.str "x") [] (by rfl)

/-! Entity factories and fact assignment.  Mutable state (the owlready world,
the shared `name_mapping`, `self.roles`, the per-(subject, property) stored
values, and the per-concept auto-name counters) is passed explicitly; methods
that mutate it return the post state next to the `Except` outcome, because a
raised Python exception leaves prior mutations in place. -/

/-- A property as `create_property` builds it: its name, base kind
(ObjectProperty vs DataProperty) and whether `FunctionalProperty` is among
its characteristics; `range_first` is `range[0]` (`none` models an empty
range list), used by the relation-concept machinery. -/
structure PropInfo where
  pname : String
  is_object_property : Bool
  functional : Bool
  range_first : Option String
deriving DecidableEq, Repr

/-- The mutable state of one `OntologyManager` load session. -/
structure OMState where
  name_mapping : NameMap
  roles : List (String × PropInfo)
  world_individuals : List (String × String)
  concepts : List String
  facts : List ((Entity × String) × List Entity)
  auto_generated_name_numbers : List (String × Nat)
deriving DecidableEq, Repr

/-- `getattr(subject, prop.name)`: the value list stored for a
(subject, property) pair; owlready yields `[]` when nothing is stored. -/
def storeGet (st : OMState) (subj : Entity) (p : String) : List Entity :=
  (List.lookup (subj, p) st.facts).getD []

/-- Overwrite the stored value list for a (subject, property) pair
(the newest entry shadows older ones). -/
def storeSet (st : OMState) (subj : Entity) (p : String) (vs : List Entity) : OMState :=
  { st with facts := ((subj, p), vs) :: st.facts }

/-- `OntologyManager.ensure_is_new_name`. -/
def ensure_is_new_name (st : OMState) (name : String) : Except PyErr Unit :=
  if (List.lookup name st.name_mapping).isSome then
    .error (.valueError ("This concept name was declared more than once: " ++ name))
  else .ok ()

/-- The Python call `main_type(name=...)` needs a class object (calling
anything else raises `TypeError`); this returns the class's name for the
world-creation log. -/
def className : Entity → Option String
  | .cls n => some n
  | .thing => some "Thing"
  | .nothing => some "Nothing"
  | _ => none

/-- `OntologyManager._create_individual`: `types[0]` (an `IndexError` on an
empty list) is instantiated in the world first; only then does a second
listed type raise `NotImplementedError` — before the name is entered into
`name_mapping`. -/
def _create_individual (st : OMState) (individual_name : String) (types : List Entity) :
    OMState × Except PyErr Entity :=
  match types with
  | [] => (st, .error .indexError)
  | main_type :: rest =>
      match className main_type with
      | none => (st, .error (.typeError "object is not callable"))
      | some tname =>
          let st1 := { st with
            world_individuals := st.world_individuals ++ [(individual_name, tname)] }
          if rest.isEmpty then
            ({ st1 with
                name_mapping := (individual_name, .ind individual_name) :: st1.name_mapping },
              .ok (.ind individual_name))
          else
            (st1, .error .notImplementedError)

/-- `OntologyManager.make_individual_from_dict`, with the `types` sub-tree
already parsed (the source obtains it via
`process_tree({"types": ...}, squeeze=True)`): check the name is new, then
`_create_individual`. -/
def make_individual_from_dict (st : OMState) (individual_name : String)
    (types : List Entity) : OMState × Except PyErr Entity :=
  match ensure_is_new_name st individual_name with
  | .error e => (st, .error e)
  | .ok _ => _create_individual st individual_name types

/-- `OntologyManager.make_class_from_dict`, at the level of name
registration: the parsed inner dict yields the parent-class list
(`SubClassOf`, defaulting to `[owl:Thing]`; asserted nonempty); the class is
created and entered into `name_mapping` with NO `ensure_is_new_name` check —
dict assignment silently overwrites.  The annotation/label/EquivalentTo
handling and the relation-concept and proxy-individual hooks that follow in
the source touch other state and perform no name check either. -/
def make_class_from_dict (st : OMState) (class_name : String)
    (parent_class_list : List Entity) : OMState × Except PyErr Entity :=
  if parent_class_list.isEmpty then (st, .error .assertionError)
  else
    let new_class := Entity.cls class_name
    ({ st with
        name_mapping := (class_name, new_class) :: st.name_mapping,
        concepts := st.concepts ++ [class_name] },
      .ok new_class)

/-- `OntologyManager._create_property_from_dict_and_type`, at the level of
name registration: `create_property` builds the new property and it is
entered into `name_mapping` and `self.roles` with NO `ensure_is_new_name`
check.  (Domain/range parsing and the call to `process_property_facts` on the
declaration's own `Facts` key are covered by the fact-assignment model.) -/
def _create_property_from_dict_and_type (st : OMState) (p : PropInfo) :
    OMState × Except PyErr PropInfo :=
  ({ st with
      name_mapping := (p.pname, .role p.pname) :: st.name_mapping,
      roles := (p.pname, p) :: st.roles },
    .ok p)

/-- A fact's right-hand side as parsed from the `Facts` list: a scalar or a
list (`ensure_list` turns both into a list). -/
inductive FactRhs where
  | one (v : Entity)
  | many (vs : List Entity)
deriving DecidableEq, Repr

/-- `ensure_list` applied to a fact value. -/
def ensure_list_fact : FactRhs → List Entity
  | .one v => [v]
  | .many vs => vs

/-- `isinstance(val, (owl2.Thing, owl2.entity.ThingClass))`: individuals and
class objects (`owl:Thing` and `owl:Nothing` are classes). -/
def isThingLike : Entity → Bool
  | .ind _ => true
  | .cls _ => true
  | .thing => true
  | .nothing => true
  | _ => false

/-- `isinstance(value, owl2.Thing)`: only individuals are `Thing` instances
(classes are not). -/
def isThingInstance : Entity → Bool
  | .ind _ => true
  | _ => false

/-- `isinstance(value, basic_types)` with `basic_types = (int, float, str)`. -/
def isBasicType : Entity → Bool
  | .strLit _ => true
  | .intLit _ => true
  | .floatLit _ => true
  | _ => false

/-- Python's `f"{type(value)}"` for the values of interest. -/
def pyTypeName : Entity → String
  | .strLit _ => "<class 'str'>"
  | .intLit _ => "<class 'int'>"
  | .floatLit _ => "<class 'float'>"
  | _ => "<owlready entity>"

/-- Modelled from owlready2's `Prop.is_functional_for(arg)`, which the core
consumes as a fixed external interface: it is true when `FunctionalProperty`
is among the property's characteristics or when the argument carries a
max-1-cardinality restriction for the property.  This loader only ever
creates `some` and `value` restrictions — never max-cardinality ones — so in
every world the loader builds, the result depends only on the property's
Functional characteristic, whatever argument the call site passes
(`process_property_facts` passes the subject,
`process_relation_concept_facts` passes the value). -/
def is_functional_for (p : PropInfo) (_arg : Entity) : Bool :=
  p.functional

/-- The message of the owlready bug that `process_property_facts`
deliberately swallows. -/
def mappingproxy_msg : String := "'mappingproxy' object has no attribute 'pop'"

/-- `OntologyManager._handle_data_property_error`: an `ObjectProperty` that
received a basic-typed value converts the error into a `TypeError` suggesting
a DataProperty; everything else re-raises the original error unchanged
(`ensure_list(value)[0]` raises `IndexError` on an empty list). -/
def _handle_data_property_error (p : PropInfo) (value : FactRhs) (origMsg : String) : PyErr :=
  match ensure_list_fact value with
  | [] => .indexError
  | v :: _ =>
      if p.is_object_property && isBasicType v then
        .typeError ("Unable to store value of type " ++ pyTypeName v ++
          " to ObjectProperty " ++ p.pname ++
          ". Probably this should be a DataProperty instead. The original error was:\n\n" ++
          origMsg)
      else .attributeError origMsg

/-- The behavior of the library `setattr` on an individual for a functional
property: success replaces the stored value; the library may instead raise
`AttributeError` with some message (e.g. `mappingproxy_msg`, its known
inverse-property bookkeeping failure when the prior value was
`owl:Nothing`). -/
def SetattrModel : Type :=
  OMState → Entity → String → Entity → Except String OMState

/-- Normal library behavior: direct replacement of the stored value. -/
def setattrOk : SetattrModel :=
  fun st subj p v => .ok (storeSet st subj p [v])

/-- A library failure: `setattr` raises `AttributeError msg`, leaving the
store unchanged. -/
def setattrRaise (msg : String) : SetattrModel :=
  fun _ _ _ _ => .error msg

/-- The loop body of `OntologyManager.process_property_facts` for one fact
`{key: value}`: every value is type-checked against an ObjectProperty
(`TypeError` otherwise); a functional property rejects list values with
`TypeError` and assigns via `setattr`, suppressing exactly the
`AttributeError` whose message contains `mappingproxy_msg` and routing every
other `AttributeError` through `_handle_data_property_error`; a
non-functional property appends `ensure_list(value)` to the subject's value
list. -/
def processOneFact (sm : SetattrModel) (p : PropInfo) (st : OMState) (key : Entity)
    (value : FactRhs) : OMState × Except PyErr Unit :=
  match (ensure_list_fact value).find?
      (fun v => p.is_object_property && !(isThingLike v)) with
  | some bad =>
      (st, .error (.typeError ("Unexpected type for property " ++ p.pname ++ ": type " ++
        pyTypeName bad ++ ". Expected an instance of `owl:Thing` or  `<owl:Nothing>`. \n" ++
        "Probable cause: unresolved key.")))
  | none =>
      if is_functional_for p key then
        match value with
        | .many _ =>
            (st, .error (.typeError
              ("While assigning range-value of functional property `" ++ p.pname ++
                "`: Expected scalar type from range but instead got list")))
        | .one v =>
            match sm st key p.pname v with
            | .ok st2 => (st2, .ok ())
            | .error msg =>
                if containsSub msg mappingproxy_msg then (st, .ok ())
                else (st, .error (_handle_data_property_error p value msg))
      else
        (storeSet st key p.pname (storeGet st key p.pname ++ ensure_list_fact value), .ok ())

/-- `OntologyManager.process_property_facts` over the parsed `Facts` list
(each fact is a one-entry mapping, unpacked by `unpack_len1_mapping`).  The
non-functional branch's own `AttributeError` handler mirrors the functional
one and is exercised only through the library append, which the normal model
performs without error. -/
def process_property_facts (sm : SetattrModel) (p : PropInfo) (st : OMState) :
    List (Entity × FactRhs) → OMState × Except PyErr Unit
  | [] => (st, .ok ())
  | (key, value) :: rest =>
      match processOneFact sm p st key value with
      | (st2, .ok _) => process_property_facts sm p st2 rest
      | (st2, .error e) => (st2, .error e)

/-- `OntologyManager._create_new_relation_concept`: read and bump the
per-type counter (`defaultdict(lambda: 0)`), then create the individual
`i<TypeName>_<n>` via `_create_individual`. -/
def _create_new_relation_concept (st : OMState) (rc_type : String) :
    OMState × Except PyErr Entity :=
  let n := (List.lookup rc_type st.auto_generated_name_numbers).getD 0
  let st1 := { st with auto_generated_name_numbers :=
      (rc_type, n + 1) :: st.auto_generated_name_numbers }
  let relation_name := "i" ++ rc_type ++ "_" ++ toString n
  _create_individual st1 relation_name [.cls rc_type]

/-- A sequence of relation-concept creations (one per requested concept
type), logging `(type, created name)` in order — the interleaving of
`_create_new_relation_concept` calls that a run of fact statements
produces. -/
def runRCRequests (st : OMState) : List String → OMState × List (String × String)
  | [] => (st, [])
  | t :: rest =>
      let r := _create_new_relation_concept st t
      let created := match r.2 with
        | .ok (.ind nm) => nm
        | _ => ""
      let r2 := runRCRequests r.1 rest
      (r2.1, (t, created) :: r2.2)

/-- One key-value pair of a relation-concept inner dict applied to the fresh
individual (the loop body over `inner_dict.items()` in
`process_relation_concept_facts`): the value is asserted to be a basic type
or a `Thing` instance; `is_functional_for` — called with the VALUE at this
site — selects `setattr` (single assignment) versus append.  The
`AttributeError` handler around the assignment mirrors
`_handle_data_property_error` and is not exercised by the normal library
model. -/
def rc_apply_pair (st : OMState) (rc_indiv : Entity) (p : PropInfo) (value : Entity) :
    OMState × Except PyErr Unit :=
  if !(isBasicType value || isThingInstance value) then (st, .error .assertionError)
  else if is_functional_for p value then
    (storeSet st rc_indiv p.pname [value], .ok ())
  else
    (storeSet st rc_indiv p.pname (storeGet st rc_indiv p.pname ++ [value]), .ok ())

/-- The loop over a relation-concept inner dict's pairs. -/
def rc_apply_pairs (st : OMState) (rc_indiv : Entity) :
    List (PropInfo × Entity) → OMState × Except PyErr Unit
  | [] => (st, .ok ())
  | (p, value) :: rest =>
      match rc_apply_pair st rc_indiv p value with
      | (st2, .ok _) => rc_apply_pairs st2 rc_indiv rest
      | (st2, .error e) => (st2, .error e)

/-- `OntologyManager.process_relation_concept_facts` for one relation
property and one inner dict (the source loops this body over `pid.items()`
and over each `inner_dict_list`): take `rc_prop.range[0]` (an `IndexError`
when the range is empty), synthesize the fresh auto-named individual, append
it to the subject's main-role value list, then populate the new individual's
own role-value facts. -/
def process_relation_concept_fact (st : OMState) (indiv : Entity) (rc_prop : PropInfo)
    (inner_dict : List (PropInfo × Entity)) : OMState × Except PyErr Entity :=
  match rc_prop.range_first with
  | none => (st, .error .indexError)
  | some relation_concept =>
      match _create_new_relation_concept st relation_concept with
      | (st2, .error e) => (st2, .error e)
      | (st2, .ok rc_indiv) =>
          let st3 := storeSet st2 indiv rc_prop.pname
            (storeGet st2 indiv rc_prop.pname ++ [rc_indiv])
          match rc_apply_pairs st3 rc_indiv inner_dict with
          | (st4, .ok _) => (st4, .ok rc_indiv)
          | (st4, .error e) => (st4, .error e)

theorem storeGet_storeSet_same (st : OMState) (subj : Entity) (p : String)
    (vs : List Entity) : storeGet (storeSet st subj p vs) subj p = vs := by
  simp [storeGet, storeSet, List.lookup]

theorem storeGet_storeSet_other (st : OMState) (s1 s2 : Entity) (p1 p2 : String)
    (vs : List Entity) (h : (s2, p2) ≠ (s1, p1)) :
    storeGet (storeSet st s1 p1 vs) s2 p2 = storeGet st s2 p2 := by
  have hb : (((s1, p1) : Entity × String) == (s2, p2)) = false :=
    beq_eq_false_iff_ne.mpr (Ne.symm h)
  have hb2 : (((s2, p2) : Entity × String) == (s1, p1)) = false :=
    beq_eq_false_iff_ne.mpr h
  simp [storeGet, storeSet, List.lookup, hb, hb2]

theorem thingLike_not_basic (v : Entity) (h : isThingLike v = true) :
    isBasicType v = false := by
  cases v <;> simp_all [isThingLike, isBasicType]

theorem typecheck_cond_false (p : PropInfo) (v : Entity)
    (h : p.is_object_property = true → isThingLike v = true) :
    ¬(p.is_object_property = true ∧ isThingLike v = false) := by
  rintro ⟨ho, ht⟩
  rw [h ho] at ht
  simp at ht

theorem typecheck_one_pass (p : PropInfo) (v : Entity)
    (h : p.is_object_property = true → isThingLike v = true) :
    (ensure_list_fact (.one v)).find?
      (fun x => p.is_object_property && !(isThingLike x)) = none := by
  cases hob : p.is_object_property with
  | false => simp [ensure_list_fact, List.find?, hob]
  | true => simp [ensure_list_fact, List.find?, hob, h hob]

theorem typecheck_many_pass (p : PropInfo) (vs : List Entity)
    (h : ∀ v ∈ vs, p.is_object_property = true → isThingLike v = true) :
    (ensure_list_fact (.many vs)).find?
      (fun x => p.is_object_property && !(isThingLike x)) = none := by
  simp only [ensure_list_fact]
  rw [List.find?_eq_none]
  intro v hv
  cases hob : p.is_object_property with
  | false => simp [hob]
  | true => simp [hob, h v hv hob]

/-- C2 counterexample: with `"A"` already registered (here as an individual),
a second top-level declaration reusing the name — a class declaration — does
not fail with a name-collision error: it succeeds and silently replaces the
entry registered under `"A"`. -/
theorem redeclaration_not_rejected_cex :
    (make_class_from_dict ⟨[("A", .ind "A")], [], [("A", "Thing")], [], [], []⟩
        "A" [.thing]).2 = .ok (.cls "A") ∧
    List.lookup "A"
        (make_class_from_dict ⟨[("A", .ind "A")], [], [("A", "Thing")], [], [], []⟩
          "A" [.thing]).1.name_mapping = some (.cls "A") ∧
    some (Entity.cls "A") ≠ some (Entity.ind "A") :=
  ⟨rfl, rfl, by decide⟩

/-- C2 (amended): only individual declarations enforce the name-collision
check.  `make_individual_from_dict` on an already-registered name fails with
the ValueError "This concept name was declared more than once: ..." and
leaves the state unchanged, while `make_class_from_dict` and
`_create_property_from_dict_and_type` register their name with no check,
silently replacing any previous entry under that name. -/
theorem name_collision_individuals_only (st : OMState) (n : String)
    (types : List Entity) (parents : List Entity) (p : PropInfo)
    (hex : (List.lookup n st.name_mapping).isSome = true)
    (hpar : parents.isEmpty = false)
    (hpn : p.pname = n) :
    make_individual_from_dict st n types =
      (st, .error (.valueError ("This concept name was declared more than once: " ++ n))) ∧
    (make_class_from_dict st n parents).2 = .ok (.cls n) ∧
    List.lookup n (make_class_from_dict st n parents).1.name_mapping = some (.cls n) ∧
    (_create_property_from_dict_and_type st p).2 = .ok p ∧
    List.lookup n (_create_property_from_dict_and_type st p).1.name_mapping =
      some (.role n) := by
  refine ⟨?_, ?_, ?_, ?_, ?_⟩
  · simp [make_individual_from_dict, ensure_is_new_name, hex]
  · simp [make_class_from_dict, hpar]
  · simp [make_class_from_dict, hpar, List.lookup]
  · simp [_create_property_from_dict_and_type]
  · simp [_create_property_from_dict_and_type, hpn, List.lookup]

/-- C2 witness for the amended statement. -/
theorem name_collision_individuals_only_witness :
    make_individual_from_dict ⟨[("A", .ind "A")], [], [("A", "Thing")], [], [], []⟩
        "A" [.thing] =
      (⟨[("A", .ind "A")], [], [("A", "Thing")], [], [], []⟩,
        .error (.valueError ("This concept name was declared more than once: " ++ "A"))) ∧
    (make_class_from_dict ⟨[("A", .ind "A")], [], [("A", "Thing")], [], [], []⟩
        "A" [.thing]).2 = .ok (.cls "A") ∧
    List.lookup "A"
        (make_class_from_dict ⟨[("A", .ind "A")], [], [("A", "Thing")], [], [], []⟩
          "A" [.thing]).1.name_mapping = some (.cls "A") ∧
    (_create_property_from_dict_and_type ⟨[("A", .ind "A")], [], [("A", "Thing")], [], [], []⟩
        ⟨"A", false, false, none⟩).2 = .ok ⟨"A", false, false, none⟩ ∧
    List.lookup "A"
        (_create_property_from_dict_and_type
          ⟨[("A", .ind "A")], [], [("A", "Thing")], [], [], []⟩
          ⟨"A", false, false, none⟩).1.name_mapping = some (.role "A") :=
  name_collision_individuals_only ⟨[("A", .ind "A")], [], [("A", "Thing")], [], [], []⟩
    "A" [.thing] [.thing] ⟨"A", false, false, none⟩ (by rfl) (by rfl) (by rfl)

/-- C10: an `owl_individual` statement listing more than one type fails with
`NotImplementedError`, but not atomically: an individual of the first listed
type has already been created in the underlying world when the error is
raised, while the name is never entered into `name_mapping`, so name
resolution is unaffected by the failed statement. -/
theorem multi_type_individual_not_atomic (st : OMState) (n : String)
    (t t2 : Entity) (rest : List Entity) (tn : String)
    (hnew : List.lookup n st.name_mapping = none)
    (hcls : className t = some tn) :
    make_individual_from_dict st n (t :: t2 :: rest) =
      ({ st with world_individuals := st.world_individuals ++ [(n, tn)] },
        .error .notImplementedError) ∧
    ({ st with world_individuals := st.world_individuals ++ [(n, tn)] }).name_mapping =
      st.name_mapping := by
  refine ⟨?_, rfl⟩
  simp [make_individual_from_dict, ensure_is_new_name, hnew, _create_individual, hcls]

/-- C10 witness. -/
theorem multi_type_individual_not_atomic_witness :
    make_individual_from_dict ⟨[], [], [], [], [], []⟩ "i1" [.cls "Pizza", .cls "Food"] =
      ({ (⟨[], [], [], [], [], []⟩ : OMState) with
          world_individuals := [] ++ [("i1", "Pizza")] },
        .error .notImplementedError) ∧
    ({ (⟨[], [], [], [], [], []⟩ : OMState) with
        world_individuals := [] ++ [("i1", "Pizza")] }).name_mapping = [] :=
  multi_type_individual_not_atomic ⟨[], [], [], [], [], []⟩ "i1"
    (.cls "Pizza") (.cls "Food") [] "Pizza" (by rfl) (by rfl)

/-- C6: under the normal library assignment, a functional property stores
only the second of two sequentially asserted values (direct replacement, not
both); a non-functional property stores both in insertion order; and a list
value for a functional property fails with `TypeError`. -/
theorem functional_vs_list_facts (p : PropInfo) (st : OMState) (s : Entity)
    (v1 v2 : Entity) (vs : List Entity)
    (h1 : p.is_object_property = true → isThingLike v1 = true)
    (h2 : p.is_object_property = true → isThingLike v2 = true)
    (hvs : ∀ v ∈ vs, p.is_object_property = true → isThingLike v = true) :
    (p.functional = true →
      (process_property_facts setattrOk p st [(s, .one v1), (s, .one v2)]).2 = .ok () ∧
      storeGet (process_property_facts setattrOk p st [(s, .one v1), (s, .one v2)]).1
        s p.pname = [v2]) ∧
    (p.functional = false →
      (process_property_facts setattrOk p st [(s, .one v1), (s, .one v2)]).2 = .ok () ∧
      storeGet (process_property_facts setattrOk p st [(s, .one v1), (s, .one v2)]).1
        s p.pname = storeGet st s p.pname ++ [v1, v2]) ∧
    (p.functional = true →
      (process_property_facts setattrOk p st [(s, .many vs)]).2 =
        .error (.typeError
          ("While assigning range-value of functional property `" ++ p.pname ++
            "`: Expected scalar type from range but instead got list"))) := by
  refine ⟨?_, ?_, ?_⟩
  · intro hf
    have e1 : processOneFact setattrOk p st s (.one v1) =
        (storeSet st s p.pname [v1], .ok ()) := by
      simp [processOneFact, typecheck_one_pass p v1 h1, typecheck_cond_false p v1 h1, is_functional_for, hf, setattrOk]
    have e2 : processOneFact setattrOk p (storeSet st s p.pname [v1]) s (.one v2) =
        (storeSet (storeSet st s p.pname [v1]) s p.pname [v2], .ok ()) := by
      simp [processOneFact, typecheck_one_pass p v2 h2, typecheck_cond_false p v2 h2, is_functional_for, hf, setattrOk]
    constructor
    · simp [process_property_facts, e1, e2]
    · simp [process_property_facts, e1, e2, storeGet_storeSet_same]
  · intro hf
    have e1 : processOneFact setattrOk p st s (.one v1) =
        (storeSet st s p.pname (storeGet st s p.pname ++ [v1]), .ok ()) := by
      simp [processOneFact, typecheck_one_pass p v1 h1, typecheck_cond_false p v1 h1,
        is_functional_for, hf, ensure_list_fact]
    have e2 : processOneFact setattrOk p (storeSet st s p.pname (storeGet st s p.pname ++ [v1]))
        s (.one v2) =
        (storeSet (storeSet st s p.pname (storeGet st s p.pname ++ [v1])) s p.pname
          (storeGet st s p.pname ++ [v1] ++ [v2]), .ok ()) := by
      simp [processOneFact, typecheck_one_pass p v2 h2, typecheck_cond_false p v2 h2,
        is_functional_for, hf, ensure_list_fact, storeGet_storeSet_same]
    constructor
    · simp [process_property_facts, e1, e2]
    · simp [process_property_facts, e1, e2, storeGet_storeSet_same]
  · intro hf
    have hcvs : ∀ v ∈ vs, ¬(p.is_object_property = true ∧ isThingLike v = false) :=
      fun v hv => typecheck_cond_false p v (hvs v hv)
    simp [process_property_facts, processOneFact, typecheck_many_pass p vs hvs,
      is_functional_for, hf, hcvs]

/-- C6 witness: a functional data property keeps only the second of two
values; a non-functional one keeps both in order; a list on a functional
property is a `TypeError`. -/
theorem functional_vs_list_facts_witness :
    ((process_property_facts setattrOk ⟨"has_age", false, true, none⟩
        ⟨[], [], [], [], [], []⟩
        [(.ind "bob", .one (.intLit 33)), (.ind "bob", .one (.intLit 34))]).2 = .ok () ∧
      storeGet (process_property_facts setattrOk ⟨"has_age", false, true, none⟩
        ⟨[], [], [], [], [], []⟩
        [(.ind "bob", .one (.intLit 33)), (.ind "bob", .one (.intLit 34))]).1
        (.ind "bob") "has_age" = [.intLit 34]) ∧
    ((process_property_facts setattrOk ⟨"has_age", false, false, none⟩
        ⟨[], [], [], [], [], []⟩
        [(.ind "bob", .one (.intLit 33)), (.ind "bob", .one (.intLit 34))]).2 = .ok () ∧
      storeGet (process_property_facts setattrOk ⟨"has_age", false, false, none⟩
        ⟨[], [], [], [], [], []⟩
        [(.ind "bob", .one (.intLit 33)), (.ind "bob", .one (.intLit 34))]).1
        (.ind "bob") "has_age" =
        storeGet ⟨[], [], [], [], [], []⟩ (.ind "bob") "has_age" ++
          [.intLit 33, .intLit 34]) ∧
    ((process_property_facts setattrOk ⟨"has_age", false, true, none⟩
        ⟨[], [], [], [], [], []⟩
        [(.ind "bob", .many [.intLit 33, .intLit 34])]).2 =
      .error (.typeError
        ("While assigning range-value of functional property `" ++ "has_age" ++
          "`: Expected scalar type from range but instead got list"))) :=
  ⟨(functional_vs_list_facts ⟨"has_age", false, true, none⟩ ⟨[], [], [], [], [], []⟩
      (.ind "bob") (.intLit 33) (.intLit 34) [.intLit 33, .intLit 34]
      (by simp) (by simp) (by simp)).1 rfl,
   (functional_vs_list_facts ⟨"has_age", false, false, none⟩ ⟨[], [], [], [], [], []⟩
      (.ind "bob") (.intLit 33) (.intLit 34) [.intLit 33, .intLit 34]
      (by simp) (by simp) (by simp)).2.1 rfl,
   (functional_vs_list_facts ⟨"has_age", false, true, none⟩ ⟨[], [], [], [], [], []⟩
      (.ind "bob") (.intLit 33) (.intLit 34) [.intLit 33, .intLit 34]
      (by simp) (by simp) (by simp)).2.2 rfl⟩

/-- C9: during functional fact assignment, exactly one library error is
suppressed — the `AttributeError` whose message contains the mappingproxy
phrase (the owlready inverse-property bookkeeping failure against
`owl:Nothing`): with it the assignment returns silently.  Every other
`AttributeError` raised by the assignment is re-raised unchanged: under the
value pre-check of `process_property_facts`, the object-property/basic-value
conversion branch of `_handle_data_property_error` cannot fire. -/
theorem functional_assignment_error_suppression (p : PropInfo) (st : OMState)
    (key v : Entity) (msg : String)
    (hf : p.functional = true)
    (hv : p.is_object_property = true → isThingLike v = true) :
    (containsSub msg mappingproxy_msg = true →
      processOneFact (setattrRaise msg) p st key (.one v) = (st, .ok ())) ∧
    (containsSub msg mappingproxy_msg = false →
      processOneFact (setattrRaise msg) p st key (.one v) =
        (st, .error (.attributeError msg))) := by
  have htc := typecheck_one_pass p v hv
  constructor
  · intro hmp
    simp [processOneFact, htc, typecheck_cond_false p v hv, is_functional_for, hf, setattrRaise, hmp]
  · intro hmp
    have hnb : (p.is_object_property && isBasicType v) = false := by
      cases hob : p.is_object_property with
      | false => simp
      | true => simp [thingLike_not_basic v (hv hob)]
    simp [processOneFact, htc, typecheck_cond_false p v hv, is_functional_for, hf,
      setattrRaise, hmp, _handle_data_property_error, ensure_list_fact, hnb]

/-- C9 witness: the mappingproxy `AttributeError` is swallowed; a different
`AttributeError` propagates unchanged. -/
theorem functional_assignment_error_suppression_witness :
    (processOneFact (setattrRaise mappingproxy_msg) ⟨"left_to", true, true, none⟩
        ⟨[], [], [], [], [], []⟩ (.ind "house_5") (.one .nothing) =
      (⟨[], [], [], [], [], []⟩, .ok ())) ∧
    (processOneFact (setattrRaise "some other attribute failure")
        ⟨"left_to", true, true, none⟩
        ⟨[], [], [], [], [], []⟩ (.ind "house_5") (.one .nothing) =
      (⟨[], [], [], [], [], []⟩,
        .error (.attributeError "some other attribute failure"))) :=
  ⟨(functional_assignment_error_suppression ⟨"left_to", true, true, none⟩
      ⟨[], [], [], [], [], []⟩ (.ind "house_5") .nothing mappingproxy_msg
      rfl (fun _ => rfl)).1 (by decide),
   (functional_assignment_error_suppression ⟨"left_to", true, true, none⟩
      ⟨[], [], [], [], [], []⟩ (.ind "house_5") .nothing
      "some other attribute failure" rfl (fun _ => rfl)).2 (by decide)⟩

theorem rc_create_eq (st : OMState) (t : String) (n : Nat)
    (hn : (List.lookup t st.auto_generated_name_numbers).getD 0 = n) :
    _create_new_relation_concept st t =
      ({ st with
          auto_generated_name_numbers := (t, n + 1) :: st.auto_generated_name_numbers,
          world_individuals := st.world_individuals ++ [("i" ++ t ++ "_" ++ toString n, t)],
          name_mapping :=
            ("i" ++ t ++ "_" ++ toString n, .ind ("i" ++ t ++ "_" ++ toString n)) ::
              st.name_mapping },
        .ok (.ind ("i" ++ t ++ "_" ++ toString n))) := by
  simp [_create_new_relation_concept, _create_individual, className, hn]

theorem rc_auto_naming_aux :
    ∀ (reqs : List String) (st : OMState) (T : String) (c : Nat),
      (List.lookup T st.auto_generated_name_numbers).getD 0 = c →
      ((runRCRequests st reqs).2.filter (fun e => e.1 == T)).map Prod.snd =
        (List.range (reqs.count T)).map (fun k => "i" ++ T ++ "_" ++ toString (c + k)) := by
  intro reqs
  induction reqs with
  | nil => intro st T c hc; simp [runRCRequests]
  | cons t rest ih =>
      intro st T c hc
      by_cases ht : t = T
      · subst ht
        simp only [runRCRequests, rc_create_eq st t c hc]
        have hc2 : (List.lookup t
            (({ st with
                auto_generated_name_numbers := (t, c + 1) :: st.auto_generated_name_numbers,
                world_individuals :=
                  st.world_individuals ++ [("i" ++ t ++ "_" ++ toString c, t)],
                name_mapping :=
                  ("i" ++ t ++ "_" ++ toString c, .ind ("i" ++ t ++ "_" ++ toString c)) ::
                    st.name_mapping } : OMState).auto_generated_name_numbers)).getD 0 =
            c + 1 := by
          simp [List.lookup]
        have hih := ih _ t (c + 1) hc2
        simp only [List.filter_cons, List.count_cons]
        simp [hih, List.range_succ_eq_map, List.map_map]
        intro a _
        have harith : c + 1 + a = c + (a + 1) := by omega
        rw [harith]
      · have hbeq : (t == T) = false := beq_eq_false_iff_ne.mpr ht
        have hbeq2 : (T == t) = false := beq_eq_false_iff_ne.mpr (Ne.symm ht)
        simp only [runRCRequests,
          rc_create_eq st t ((List.lookup t st.auto_generated_name_numbers).getD 0) rfl]
        have hc2 : (List.lookup T
            (({ st with
                auto_generated_name_numbers :=
                  (t, (List.lookup t st.auto_generated_name_numbers).getD 0 + 1) ::
                    st.auto_generated_name_numbers,
                world_individuals := st.world_individuals ++
                  [("i" ++ t ++ "_" ++
                      toString ((List.lookup t st.auto_generated_name_numbers).getD 0), t)],
                name_mapping :=
                  ("i" ++ t ++ "_" ++
                      toString ((List.lookup t st.auto_generated_name_numbers).getD 0),
                    .ind ("i" ++ t ++ "_" ++
                      toString ((List.lookup t st.auto_generated_name_numbers).getD 0))) ::
                    st.name_mapping } : OMState).auto_generated_name_numbers)).getD 0 =
            c := by
          simp [List.lookup, hbeq2, hc]
        have hih := ih _ T c hc2
        simp [List.filter_cons, List.count_cons, hbeq, hih]

/-- C8: the n-th reified individual auto-created for a relation-concept
subclass T (counting from 0) is named `i<T.name>_<n>`; the counter is
strictly increasing per concept type and independent across distinct types,
regardless of how requests for different types are interleaved. -/
theorem rc_auto_naming (reqs : List String) (st : OMState) (T : String)
    (h0 : (List.lookup T st.auto_generated_name_numbers).getD 0 = 0) :
    ((runRCRequests st reqs).2.filter (fun e => e.1 == T)).map Prod.snd =
      (List.range (reqs.count T)).map (fun k => "i" ++ T ++ "_" ++ toString k) := by
  have h := rc_auto_naming_aux reqs st T 0 h0
  simpa using h

/-- C8 witness: interleaved creations for `X_A` and `X_B` — the `X_A`
individuals are `iX_A_0`, `iX_A_1` in order. -/
theorem rc_auto_naming_witness :
    ((runRCRequests ⟨[], [], [], [], [], []⟩ ["X_A", "X_B", "X_A"]).2.filter
        (fun e => e.1 == "X_A")).map Prod.snd =
      (List.range (List.count "X_A" ["X_A", "X_B", "X_A"])).map
        (fun k => "i" ++ "X_A" ++ "_" ++ toString k) :=
  rc_auto_naming ["X_A", "X_B", "X_A"] ⟨[], [], [], [], [], []⟩ "X_A" (by rfl)

/-- C7: one relation-instance dict yields a fresh auto-named individual of
the relation-concept subclass (`rc_prop.range[0]`), linked to the subject by
appending it to the subject's main-role value list; each remaining key-value
pair is stored on the new individual with single-assignment exactly when the
property is functional (a property characteristic) and append-to-list
otherwise — uniformly in the value. -/
theorem relation_concept_fact_semantics (st : OMState) (indiv : Entity)
    (rc_prop : PropInfo) (T : String) (p : PropInfo) (value : Entity) (n : Nat)
    (hr : rc_prop.range_first = some T)
    (hn : (List.lookup T st.auto_generated_name_numbers).getD 0 = n)
    (hv : (isBasicType value || isThingInstance value) = true)
    (hsep : ((indiv, rc_prop.pname) : Entity × String) ≠
      (.ind ("i" ++ T ++ "_" ++ toString n), p.pname)) :
    (process_relation_concept_fact st indiv rc_prop [(p, value)]).2 =
      .ok (.ind ("i" ++ T ++ "_" ++ toString n)) ∧
    storeGet (process_relation_concept_fact st indiv rc_prop [(p, value)]).1
        indiv rc_prop.pname =
      storeGet st indiv rc_prop.pname ++ [.ind ("i" ++ T ++ "_" ++ toString n)] ∧
    storeGet (process_relation_concept_fact st indiv rc_prop [(p, value)]).1
        (.ind ("i" ++ T ++ "_" ++ toString n)) p.pname =
      (if p.functional then [value]
       else storeGet st (.ind ("i" ++ T ++ "_" ++ toString n)) p.pname ++ [value]) := by
  have hcr := rc_create_eq st T n hn
  have hsep2 : ((Entity.ind ("i" ++ T ++ "_" ++ toString n), p.pname) : Entity × String) ≠
      (indiv, rc_prop.pname) := Ne.symm hsep
  have hb1 : (((indiv, rc_prop.pname) : Entity × String) ==
      (.ind ("i" ++ T ++ "_" ++ toString n), p.pname)) = false :=
    beq_eq_false_iff_ne.mpr hsep
  have hb2 : (((Entity.ind ("i" ++ T ++ "_" ++ toString n), p.pname) : Entity × String) ==
      (indiv, rc_prop.pname)) = false :=
    beq_eq_false_iff_ne.mpr hsep2
  cases hfun : p.functional with
  | true =>
      refine ⟨?_, ?_, ?_⟩ <;>
        simp [process_relation_concept_fact, hr, hcr, rc_apply_pairs, rc_apply_pair,
          is_functional_for, hv, hfun, storeGet, storeSet, List.lookup, hb1, hb2]
  | false =>
      refine ⟨?_, ?_, ?_⟩ <;>
        simp [process_relation_concept_fact, hr, hcr, rc_apply_pairs, rc_apply_pair,
          is_functional_for, hv, hfun, storeGet, storeSet, List.lookup, hb1, hb2]

/-- C7 witness: a non-functional role value is appended to the fresh
`iX_DocRef_0` individual; the subject's main role gains the new individual. -/
theorem relation_concept_fact_semantics_witness :
    (process_relation_concept_fact ⟨[], [], [], [], [], []⟩ (.ind "dir_rule1")
        ⟨"X_hasDocRef", true, false, some "X_DocRef"⟩
        [(⟨"hasSection", false, false, none⟩, .strLit "s11")]).2 =
      .ok (.ind ("i" ++ "X_DocRef" ++ "_" ++ toString 0)) ∧
    storeGet (process_relation_concept_fact ⟨[], [], [], [], [], []⟩ (.ind "dir_rule1")
        ⟨"X_hasDocRef", true, false, some "X_DocRef"⟩
        [(⟨"hasSection", false, false, none⟩, .strLit "s11")]).1
        (.ind "dir_rule1") "X_hasDocRef" =
      storeGet ⟨[], [], [], [], [], []⟩ (.ind "dir_rule1") "X_hasDocRef" ++
        [.ind ("i" ++ "X_DocRef" ++ "_" ++ toString 0)] ∧
    storeGet (process_relation_concept_fact ⟨[], [], [], [], [], []⟩ (.ind "dir_rule1")
        ⟨"X_hasDocRef", true, false, some "X_DocRef"⟩
        [(⟨"hasSection", false, false, none⟩, .strLit "s11")]).1
        (.ind ("i" ++ "X_DocRef" ++ "_" ++ toString 0)) "hasSection" =
      (if (⟨"hasSection", false, false, none⟩ : PropInfo).functional then [.strLit "s11"]
       else storeGet ⟨[], [], [], [], [], []⟩
          (.ind ("i" ++ "X_DocRef" ++ "_" ++ toString 0)) "hasSection" ++
          [.strLit "s11"]) :=
  relation_concept_fact_semantics ⟨[], [], [], [], [], []⟩ (.ind "dir_rule1")
    ⟨"X_hasDocRef", true, false, some "X_DocRef"⟩ "X_DocRef"
    ⟨"hasSection", false, false, none⟩ (.strLit "s11") 0
    (by rfl) (by rfl) (by rfl) (by decide)

end YamlPyOwl
